import Mathlib

/-!
Verification of the Prana BLE client driver (`service.py`): device identity
filtering, the connection state machine of `PranaDevice`, the registry of
sessions kept by `PranaDeviceManager`, the write/settle/read command exchange,
and the fixed-offset binary state decoder `__parse_state`.

Payload bytes are modelled as `Nat` (a Python `bytearray` entry is `0..255`;
for such values Python's `int(b / 10)` coincides with natural division
`b / 10`).  Python strings are modelled as `List Char`; a missing (`None`)
advertised name is modelled as the empty list, which Python treats the same
way (both are falsy).  Fallible Python calls are modelled with `Except`, and
the observable BLE traffic of each operation is returned as an explicit event
trace.
-/

/-- The state record filled in by `PranaDevice.__parse_state`
(`PranaState` from `entity.py`; the fields are exactly the attributes the
decoder assigns). -/
structure PranaState where
  speed_locked : Nat
  speed_in : Nat
  speed_out : Nat
  auto_mode : Bool
  night_mode : Bool
  flows_locked : Bool
  is_on : Bool
  mini_heating_enabled : Bool
  winter_mode_enabled : Bool
  is_input_fan_on : Bool
  is_output_fan_on : Bool
deriving DecidableEq

/-- `PranaDevice.STATE_MSG_PREFIX = b'\xbe\xef'`. -/
def STATE_MSG_PREF : List Nat := [0xBE, 0xEF]

/-- Python indexing `data[i]` on a `bytearray`: the byte when `i` is in
range, otherwise an `IndexError` carrying the offending index. -/
def getByte (data : List Nat) (i : Nat) : Except Nat Nat :=
  match data.get? i with
  | some v => .ok v
  | none => .error i

/-- `PranaDevice.__parse_state`, with field reads in the source's order.
`.ok none` is Python's `return None` (marker mismatch); `.error i` is an
uncaught `IndexError` at offset `i`. -/
def parse_state (data : List Nat) : Except Nat (Option PranaState) := do
    if data.take 2 ≠ STATE_MSG_PREF then return none
    let b26 ← getByte data 26
    let b30 ← getByte data 30
    let b34 ← getByte data 34
    let b20 ← getByte data 20
    let b16 ← getByte data 16
    let b22 ← getByte data 22
    let b10 ← getByte data 10
    let b14 ← getByte data 14
    let b42 ← getByte data 42
    let b28 ← getByte data 28
    let b32 ← getByte data 32
    return some
      { speed_locked := b26 / 10
        speed_in := b30 / 10
        speed_out := b34 / 10
        auto_mode := b20 != 0
        night_mode := b16 != 0
        flows_locked := b22 != 0
        is_on := b10 != 0
        mini_heating_enabled := b14 != 0
        winter_mode_enabled := b42 != 0
        is_input_fan_on := b28 != 0
        is_output_fan_on := b32 != 0 }

deriving instance DecidableEq for Except

/-- `PranaDeviceManager.PRANA_DEVICE_NAME_PREFIX = 'PRNAQaq'`. -/
def pranaPref : List Char := ['P', 'R', 'N', 'A', 'Q', 'a', 'q']

/-- A raw BLE advertisement (`bleak.backends.device.BLEDevice`): the fields
`discover` reads.  A `None` advertised name is modelled as `[]`. -/
structure BLEDevice where
  name : List Char
  address : String
  rssi : Int
deriving DecidableEq

/-- `PranaDeviceInfo` from `entity.py`: the named tuple built by
`PranaDeviceManager.discover`. -/
structure PranaDeviceInfo where
  address : String
  bt_device_name : List Char
  name : List Char
  rssi : Int
deriving DecidableEq

/-- `PranaDeviceManager.__is_prana_device`:
`dev.name and dev.name.startswith(PRANA_DEVICE_NAME_PREFIX)`. -/
def is_prana_device (dev : BLEDevice) : Bool :=
  !dev.name.isEmpty && pranaPref.isPrefixOf dev.name

/-- Python's `s.replace('PRNAQaq', '')`: scan left to right, delete every
non-overlapping occurrence of the pattern (the first case spells out
`pranaPref`). -/
def removePrefixAll : List Char → List Char
  | 'P' :: 'R' :: 'N' :: 'A' :: 'Q' :: 'a' :: 'q' :: rest => removePrefixAll rest
  | c :: rest => c :: removePrefixAll rest
  | [] => []

/-- Python's `s.strip()`: drop whitespace from both ends. -/
def pyStrip (s : List Char) : List Char :=
  ((s.dropWhile Char.isWhitespace).reverse.dropWhile Char.isWhitespace).reverse

/-- `PranaDeviceManager.__prana_dev_name_2_name`:
`dev_name.replace(PRANA_DEVICE_NAME_PREFIX, '').strip() if dev_name else dev_name`. -/
def prana_dev_name_2_name (dev_name : List Char) : List Char :=
  if dev_name.isEmpty then dev_name
  else pyStrip (removePrefixAll dev_name)

/-- The pure part of `PranaDeviceManager.discover`: filter the scanner's
advertisements with `__is_prana_device`, then build a `PranaDeviceInfo`
for each survivor. -/
def discoverInfos (devs : List BLEDevice) : List PranaDeviceInfo :=
  (devs.filter is_prana_device).map fun dev =>
    { address := dev.address
      bt_device_name := pyStrip dev.name
      name := prana_dev_name_2_name dev.name
      rssi := dev.rssi }

/-- Modelled from the spec (§4.1 Device Identity Filter): per advertisement,
return `some` identity iff the name is non-empty and starts with the product
prefix; the friendly name is the name with all occurrences of the prefix text
removed and the result then trimmed. -/
def spec_identity (dev : BLEDevice) : Option PranaDeviceInfo :=
  if !dev.name.isEmpty && pranaPref.isPrefixOf dev.name then
    some { address := dev.address
           bt_device_name := pyStrip dev.name
           name := pyStrip (removePrefixAll dev.name)
           rssi := dev.rssi }
  else none

/-- `pat` occurs somewhere inside `s` (substring test). -/
def containsSub (pat s : List Char) : Bool :=
  s.tails.any pat.isPrefixOf

/-- `PranaDevice.CONTROL_RW_CHARACTERISTIC_UUID`. -/
def CONTROL_RW_CHAR_UUID : String := "0000cccc-0000-1000-8000-00805f9b34fb"

/-- Observable calls made on the `bleak.BleakClient` transport. -/
inductive BleEvent
  | connectCall
  | subscribeCall (uuid : String)
  | writeChar (uuid : String) (data : List Nat) (response : Bool)
  | sleepMs (ms : Nat)
  | readChar (uuid : String) (useCached : Bool)
  | disconnectCall
  | statusQuery
deriving DecidableEq

/-- Errors surfaced by the session layer: `transportError` is any `bleak`
exception; `notConnectedError` is the
`RuntimeError('Illegal state: device must be connected before running any
commands')` raised by `__verify_connected`. -/
inductive PranaError
  | transportError
  | notConnectedError
deriving DecidableEq

/-- Scripted behaviour of the external BLE transport for one call sequence. -/
structure Transport where
  connectFails : Bool
  liveConnected : Bool
  writeFails : Bool
  readFails : Bool
  readValue : List Nat
  disconnectFails : Bool
deriving DecidableEq

/-- The mutable state of a `PranaDevice` session: its address and the
`__has_connect_attempts` flag (initially `False`). -/
structure PranaDevice where
  address : String
  has_connect_attempts : Bool
deriving DecidableEq

/-- `PranaDevice.connect`: `await client.connect(...)` (which may raise),
then set `__has_connect_attempts = True`, then
`await client.start_notify(CONTROL_RW_CHARACTERISTIC_UUID, handler)`.
Returns (result, updated session, transport trace). -/
def deviceConnect (env : Transport) (d : PranaDevice) :
    Except PranaError Unit × PranaDevice × List BleEvent :=
  if env.connectFails then
    (.error .transportError, d, [.connectCall])
  else
    (.ok (), { d with has_connect_attempts := true },
      [.connectCall, .subscribeCall CONTROL_RW_CHAR_UUID])

/-- `PranaDevice.disconnect`: unconditionally `await client.disconnect()`. -/
def deviceDisconnect (env : Transport) (d : PranaDevice) :
    Except PranaError Unit × PranaDevice × List BleEvent :=
  if env.disconnectFails then (.error .transportError, d, [.disconnectCall])
  else (.ok (), d, [.disconnectCall])

/-- `PranaDevice.is_connected`: `False` without a prior connect attempt,
otherwise the transport's live answer (`await client.is_connected()`). -/
def deviceIsConnected (env : Transport) (d : PranaDevice) :
    Bool × List BleEvent :=
  if !d.has_connect_attempts then (false, [])
  else (env.liveConnected, [.statusQuery])

/-- `PranaDevice.__verify_connected`: raise unless `is_connected()`. -/
def verifyConnected (env : Transport) (d : PranaDevice) :
    Except PranaError Unit × List BleEvent :=
  let (ok, tr) := deviceIsConnected env d
  if ok then (.ok (), tr) else (.error .notConnectedError, tr)

/-- Command byte sequences from `PranaDevice.Cmd`. -/
def ENABLE_HIGH_SPEED : List Nat := [0xBE, 0xEF, 0x04, 0x07]

/-- `Cmd.ENABLE_NIGHT_MODE`. -/
def ENABLE_NIGHT_MODE : List Nat := [0xBE, 0xEF, 0x04, 0x06]

/-- `Cmd.STOP`. -/
def CMD_STOP : List Nat := [0xBE, 0xEF, 0x04, 0x01]

/-- `Cmd.READ_STATE`. -/
def CMD_READ_STATE : List Nat := [0xBE, 0xEF, 0x05, 0x01, 0x00, 0x00, 0x00, 0x00, 0x5A]

/-- `PranaDevice._send_command`: write the command with `response=True`,
`await asyncio.sleep(0.6)` (600 ms), read the characteristic with
`use_cached=False`; the read bytes are returned only when `expect_reply`
(otherwise Python returns `None`).  A transport failure propagates and stops
the sequence. -/
def sendCommand (env : Transport) (command : List Nat) (expect_reply : Bool) :
    Except PranaError (Option (List Nat)) × List BleEvent :=
  if env.writeFails then
    (.error .transportError, [.writeChar CONTROL_RW_CHAR_UUID command true])
  else if env.readFails then
    (.error .transportError,
      [.writeChar CONTROL_RW_CHAR_UUID command true, .sleepMs 600,
        .readChar CONTROL_RW_CHAR_UUID false])
  else
    (.ok (if expect_reply then some env.readValue else none),
      [.writeChar CONTROL_RW_CHAR_UUID command true, .sleepMs 600,
        .readChar CONTROL_RW_CHAR_UUID false])

/-- `PranaDevice.set_high_speed`: `__verify_connected` then
`_send_command(Cmd.ENABLE_HIGH_SPEED)`. -/
def setHighSpeed (env : Transport) (d : PranaDevice) :
    Except PranaError Unit × List BleEvent :=
  match verifyConnected env d with
  | (.error e, tr) => (.error e, tr)
  | (.ok _, tr) =>
    let (r, tr2) := sendCommand env ENABLE_HIGH_SPEED false
    (r.map fun _ => (), tr ++ tr2)

/-- `PranaDevice.set_night_mode`. -/
def setNightMode (env : Transport) (d : PranaDevice) :
    Except PranaError Unit × List BleEvent :=
  match verifyConnected env d with
  | (.error e, tr) => (.error e, tr)
  | (.ok _, tr) =>
    let (r, tr2) := sendCommand env ENABLE_NIGHT_MODE false
    (r.map fun _ => (), tr ++ tr2)

/-- `PranaDevice.turn_off`. -/
def turnOff (env : Transport) (d : PranaDevice) :
    Except PranaError Unit × List BleEvent :=
  match verifyConnected env d with
  | (.error e, tr) => (.error e, tr)
  | (.ok _, tr) =>
    let (r, tr2) := sendCommand env CMD_STOP false
    (r.map fun _ => (), tr ++ tr2)

/-- `PranaDevice.read_state`: guard, send `Cmd.READ_STATE` expecting a reply,
decode the reply with `__parse_state`. -/
def readState (env : Transport) (d : PranaDevice) :
    Except PranaError (Except Nat (Option PranaState)) × List BleEvent :=
  match verifyConnected env d with
  | (.error e, tr) => (.error e, tr)
  | (.ok _, tr) =>
    match sendCommand env CMD_READ_STATE true with
    | (.error e, tr2) => (.error e, tr ++ tr2)
    | (.ok r, tr2) => (.ok (parse_state (r.getD [])), tr ++ tr2)

/-- `true` iff the trace contains no characteristic write and no
characteristic read. -/
def charIOFree : List BleEvent → Bool
  | [] => true
  | e :: rest =>
    (match e with
      | .writeChar _ _ _ => false
      | .readChar _ _ => false
      | _ => true) && charIOFree rest

/-- Number of `start_notify` subscriptions in a trace. -/
def countSubs (tr : List BleEvent) : Nat :=
  (tr.filter fun e => match e with | .subscribeCall _ => true | _ => false).length

/-- A session held by the manager's `__managed_devices` dict, tagged with an
allocation token `id` so that Python reference identity ("the same
`PranaDevice` object") is expressible. -/
structure ManagedDevice where
  id : Nat
  dev : PranaDevice
deriving DecidableEq

/-- `PranaDeviceManager` state: the `__managed_devices` dict (an address-keyed
association list in insertion order) plus the next fresh identity token. -/
structure Manager where
  managed : List (String × ManagedDevice)
  nextId : Nat
deriving DecidableEq

/-- Dict lookup `self.__managed_devices.get(address, None)`. -/
def lookupDev : List (String × ManagedDevice) → String → Option ManagedDevice
  | [], _ => none
  | (a, md) :: rest, addr => if a = addr then some md else lookupDev rest addr

/-- Dict update of an existing key (replace the stored session's state). -/
def updateDev : List (String × ManagedDevice) → String → ManagedDevice →
    List (String × ManagedDevice)
  | [], _, _ => []
  | (a, md) :: rest, addr, md' =>
    if a = addr then (a, md') :: rest else (a, md) :: updateDev rest addr md'

/-- `PranaDeviceManager.connect`: look the address up in
`__managed_devices`; if absent create a fresh `PranaDevice` and store it;
then `await device.connect(timeout)` and return the device (its identity
token) — or propagate the connect error, the device staying stored. -/
def managerConnect (env : Transport) (m : Manager) (addr : String) :
    Except PranaError Nat × Manager :=
  match lookupDev m.managed addr with
  | some md =>
    let (r, d', _) := deviceConnect env md.dev
    (r.map fun _ => md.id,
      { m with managed := updateDev m.managed addr { md with dev := d' } })
  | none =>
    let d0 : PranaDevice := { address := addr, has_connect_attempts := false }
    let (r, d', _) := deviceConnect env d0
    (r.map fun _ => m.nextId,
      { managed := m.managed ++ [(addr, { id := m.nextId, dev := d' })],
        nextId := m.nextId + 1 })

/-- The loop body of `PranaDeviceManager.disconnect_all`:
`for dev in self.__managed_devices.values(): await dev.disconnect()`.
There is no exception handler, so a failing disconnect propagates at once.
Returns the loop's result and the addresses on which a disconnect was
attempted, in order.  `env` gives each address its transport. -/
def disconnectAllGo (env : String → Transport) :
    List (String × ManagedDevice) → Except PranaError Unit × List String
  | [] => (.ok (), [])
  | (addr, md) :: rest =>
    match deviceDisconnect (env addr) md.dev with
    | (.error e, _, _) => (.error e, [addr])
    | (.ok _, _, _) =>
      let (r, attempted) := disconnectAllGo env rest
      (r, addr :: attempted)

/-- `PranaDeviceManager.disconnect_all` over the manager's dict. -/
def disconnect_all (env : String → Transport) (m : Manager) :
    Except PranaError Unit × List String :=
  disconnectAllGo env m.managed

/-- A transport on which every call succeeds and the link is up. -/
def okT : Transport :=
  { connectFails := false, liveConnected := true, writeFails := false,
    readFails := false, readValue := [], disconnectFails := false }

/-- A transport whose `connect` raises. -/
def failT : Transport := { okT with connectFails := true, liveConnected := false }

/-- A session that never attempted a connect. -/
def dNC : PranaDevice := { address := "AA:BB:CC:DD:EE:FF", has_connect_attempts := false }

/-- A session with the attempted flag set (connected under `okT`). -/
def dConn : PranaDevice := { address := "AA:BB:CC:DD:EE:FF", has_connect_attempts := true }

/-- The spec's end-to-end discovery advertisement. -/
def devLR : BLEDevice :=
  { name := "PRNAQaq Living Room".toList, address := "AA:BB:CC:DD:EE:FF", rssi := -60 }

/-- Transports for the disconnect-all scenario: disconnect fails at "A". -/
def envC4 : String → Transport :=
  fun a => if a = "A" then { okT with disconnectFails := true } else okT

/-- Two managed sessions, at "A" and "B". -/
def mgdC4 : List (String × ManagedDevice) :=
  [("A", { id := 0, dev := { address := "A", has_connect_attempts := true } }),
   ("B", { id := 1, dev := { address := "B", has_connect_attempts := true } })]

/-- A manager already holding a session (token 7) for "A". -/
def mW : Manager :=
  { managed := [("A", { id := 7, dev := { address := "A", has_connect_attempts := false } })],
    nextId := 8 }

/-- A 43-byte state payload: marker, byte 10 = 1, byte 26 = 0x32, rest 0. -/
def pDemo : List Nat :=
  [0xBE, 0xEF, 0, 0, 0, 0, 0, 0, 0, 0,
   1, 0, 0, 0, 0, 0, 0, 0, 0, 0,
   0, 0, 0, 0, 0, 0, 0x32, 0, 0, 0,
   0, 0, 0, 0, 0, 0, 0, 0, 0, 0,
   0, 0, 0]

/-- A marker-prefixed payload that is far too short. -/
def pShort : List Nat := [0xBE, 0xEF]

/-- A payload with a wrong marker. -/
def pWrong : List Nat := [0xCA, 0xFE, 0, 0]

theorem ok_bind {ε α β : Type} (x : α) (f : α → Except ε β) :
    (Except.ok (ε := ε) x >>= f) = f x := rfl

theorem err_bind {ε α β : Type} (e : ε) (f : α → Except ε β) :
    (Except.error (α := α) e >>= f) = Except.error e := rfl

theorem getByte_ok (data : List Nat) (i : Nat) (h : i < data.length) :
    getByte data i = .ok (data.getD i 0) := by
  rcases hg : data[i]? with _ | v
  · rw [List.getElem?_eq_none_iff] at hg
    omega
  · simp [getByte, hg]

theorem getByte_err (data : List Nat) (i : Nat) (h : data.length ≤ i) :
    getByte data i = .error i := by
  simp [getByte, List.getElem?_eq_none_iff.2 h]

theorem parse_state_not_marker (data : List Nat)
    (h : data.take 2 ≠ STATE_MSG_PREF) : parse_state data = .ok none := by
  simp [parse_state, h]
  rfl

theorem parse_state_long (data : List Nat) (hm : data.take 2 = STATE_MSG_PREF)
    (hl : 43 ≤ data.length) :
    parse_state data = .ok (some
      { speed_locked := data.getD 26 0 / 10
        speed_in := data.getD 30 0 / 10
        speed_out := data.getD 34 0 / 10
        auto_mode := data.getD 20 0 != 0
        night_mode := data.getD 16 0 != 0
        flows_locked := data.getD 22 0 != 0
        is_on := data.getD 10 0 != 0
        mini_heating_enabled := data.getD 14 0 != 0
        winter_mode_enabled := data.getD 42 0 != 0
        is_input_fan_on := data.getD 28 0 != 0
        is_output_fan_on := data.getD 32 0 != 0 }) := by
  simp [parse_state, hm, ok_bind,
    getByte_ok data 26 (by omega), getByte_ok data 30 (by omega),
    getByte_ok data 34 (by omega), getByte_ok data 20 (by omega),
    getByte_ok data 16 (by omega), getByte_ok data 22 (by omega),
    getByte_ok data 10 (by omega), getByte_ok data 14 (by omega),
    getByte_ok data 42 (by omega), getByte_ok data 28 (by omega),
    getByte_ok data 32 (by omega), List.getD_eq_getElem?_getD]

theorem dropWhile_idem {α : Type} (p : α → Bool) (l : List α) :
    (l.dropWhile p).dropWhile p = l.dropWhile p := by
  induction l with
  | nil => rfl
  | cons c t ih =>
    rw [List.dropWhile_cons]
    by_cases h : p c = true
    · simp [h, ih]
    · simp [h, List.dropWhile_cons]

theorem dropWhile_head_false {α : Type} (p : α → Bool) (l : List α) (c : α)
    (h : (l.dropWhile p).head? = some c) : p c = false := by
  induction l with
  | nil => simp at h
  | cons a t ih =>
    rw [List.dropWhile_cons] at h
    by_cases hp : p a = true
    · rw [if_pos hp] at h
      exact ih h
    · rw [if_neg hp] at h
      simp only [List.head?_cons, Option.some.injEq] at h
      subst h
      simpa using hp

theorem dropWhile_eq_self {α : Type} (p : α → Bool) (l : List α)
    (h : ∀ c, l.head? = some c → p c = false) : l.dropWhile p = l := by
  cases l with
  | nil => rfl
  | cons a t =>
    rw [List.dropWhile_cons, if_neg (by simp [h a rfl])]

theorem getLast?_dropWhile {α : Type} (p : α → Bool) (l : List α)
    (h : l.dropWhile p ≠ []) : (l.dropWhile p).getLast? = l.getLast? := by
  induction l with
  | nil => simp at h
  | cons a t ih =>
    rw [List.dropWhile_cons] at h ⊢
    by_cases hp : p a = true
    · rw [if_pos hp] at h ⊢
      rw [ih h]
      cases t with
      | nil => simp [List.dropWhile] at h
      | cons b u => rw [List.getLast?_cons_cons]
    · rw [if_neg hp]

theorem pyStrip_idem (s : List Char) : pyStrip (pyStrip s) = pyStrip s := by
  have hstep : (pyStrip s).dropWhile Char.isWhitespace = pyStrip s := by
    apply dropWhile_eq_self
    intro c hc
    unfold pyStrip at hc
    rw [List.head?_reverse] at hc
    have hne :
        ((s.dropWhile Char.isWhitespace).reverse.dropWhile Char.isWhitespace) ≠ [] := by
      intro h0
      rw [h0] at hc
      simp at hc
    rw [getLast?_dropWhile _ _ hne, List.getLast?_reverse] at hc
    exact dropWhile_head_false _ _ _ hc
  show ((((pyStrip s).dropWhile Char.isWhitespace).reverse.dropWhile
      Char.isWhitespace).reverse) = pyStrip s
  rw [hstep]
  unfold pyStrip
  rw [List.reverse_reverse, dropWhile_idem]

theorem lookupDev_append_right (l : List (String × ManagedDevice)) (addr : String)
    (md : ManagedDevice) (h : lookupDev l addr = none) :
    lookupDev (l ++ [(addr, md)]) addr = some md := by
  induction l with
  | nil => simp [lookupDev]
  | cons p rest ih =>
    rcases p with ⟨a, md0⟩
    rw [List.cons_append]
    unfold lookupDev at h ⊢
    by_cases ha : a = addr
    · rw [if_pos ha] at h
      exact absurd h (by simp)
    · rw [if_neg ha] at h ⊢
      exact ih h

theorem lookupDev_updateDev (l : List (String × ManagedDevice)) (addr : String)
    (md md' : ManagedDevice) (h : lookupDev l addr = some md) :
    lookupDev (updateDev l addr md') addr = some md' := by
  induction l with
  | nil => simp [lookupDev] at h
  | cons p rest ih =>
    rcases p with ⟨a, md0⟩
    simp only [lookupDev] at h
    simp only [updateDev]
    by_cases ha : a = addr
    · rw [if_pos ha]
      simp [lookupDev, ha]
    · rw [if_neg ha] at h
      rw [if_neg ha]
      simp only [lookupDev]
      rw [if_neg ha]
      exact ih h

theorem updateDev_length (l : List (String × ManagedDevice)) (addr : String)
    (md' : ManagedDevice) : (updateDev l addr md').length = l.length := by
  induction l with
  | nil => rfl
  | cons p rest ih =>
    rcases p with ⟨a, md0⟩
    unfold updateDev
    by_cases ha : a = addr
    · rw [if_pos ha]
      simp
    · rw [if_neg ha]
      simp [ih]

theorem managerConnect_lookup (env : Transport) (m : Manager) (addr : String) :
    ∃ md, lookupDev (managerConnect env m addr).2.managed addr = some md ∧
      ∀ i, (managerConnect env m addr).1 = .ok i → i = md.id := by
  unfold managerConnect
  rcases h : lookupDev m.managed addr with _ | md
  · by_cases hc : env.connectFails = true
    · simp only [h, deviceConnect, hc, if_true]
      exact ⟨_, lookupDev_append_right _ _ _ h, by intro i hi; simp [Except.map] at hi⟩
    · simp only [h, deviceConnect, hc, if_false, Bool.false_eq_true]
      refine ⟨_, lookupDev_append_right _ _ _ h, ?_⟩
      intro i hi
      simp [Except.map] at hi
      exact hi.symm
  · by_cases hc : env.connectFails = true
    · simp only [h, deviceConnect, hc, if_true]
      exact ⟨_, lookupDev_updateDev _ _ _ _ h, by intro i hi; simp [Except.map] at hi⟩
    · simp only [h, deviceConnect, hc, if_false, Bool.false_eq_true]
      refine ⟨_, lookupDev_updateDev _ _ _ _ h, ?_⟩
      intro i hi
      simp [Except.map] at hi
      exact hi.symm

theorem managerConnect_reuse (env : Transport) (m : Manager) (addr : String)
    (md : ManagedDevice) (h : lookupDev m.managed addr = some md) :
    ∀ j, (managerConnect env m addr).1 = .ok j → j = md.id := by
  intro j hj
  unfold managerConnect at hj
  rw [h] at hj
  by_cases hc : env.connectFails = true
  · simp [deviceConnect, hc, Except.map] at hj
  · simp [deviceConnect, hc, Except.map] at hj
    exact hj.symm

theorem managerConnect_length_of_some (env : Transport) (m : Manager) (addr : String)
    (md : ManagedDevice) (h : lookupDev m.managed addr = some md) :
    (managerConnect env m addr).2.managed.length = m.managed.length := by
  unfold managerConnect
  rw [h]
  simp [updateDev_length]

theorem managerConnect_preserves_id (env : Transport) (m : Manager) (addr : String)
    (md : ManagedDevice) (h : lookupDev m.managed addr = some md) :
    (lookupDev (managerConnect env m addr).2.managed addr).map ManagedDevice.id =
      some md.id := by
  unfold managerConnect
  rw [h]
  by_cases hc : env.connectFails = true <;>
    simp only [deviceConnect, hc, if_true, if_false, Bool.false_eq_true] <;>
    rw [lookupDev_updateDev m.managed addr md _ h] <;>
    rfl

/-- C1: `__parse_state` returns `None` for every payload whose first two bytes
differ from the marker `0xBE 0xEF`; on a marker-prefixed payload of at least
43 bytes it succeeds, with every boolean field equal to
`payload[offset] != 0` and every speed field equal to `payload[offset] / 10`
(integer division) at the source's fixed offsets. -/
theorem C1_parse_state (data : List Nat) :
    (2 ≤ data.length → data.getD 0 0 ≠ 0xBE ∨ data.getD 1 0 ≠ 0xEF →
      parse_state data = .ok none) ∧
    (data.take 2 = STATE_MSG_PREF → 43 ≤ data.length →
      parse_state data = .ok (some
        { speed_locked := data.getD 26 0 / 10
          speed_in := data.getD 30 0 / 10
          speed_out := data.getD 34 0 / 10
          auto_mode := data.getD 20 0 != 0
          night_mode := data.getD 16 0 != 0
          flows_locked := data.getD 22 0 != 0
          is_on := data.getD 10 0 != 0
          mini_heating_enabled := data.getD 14 0 != 0
          winter_mode_enabled := data.getD 42 0 != 0
          is_input_fan_on := data.getD 28 0 != 0
          is_output_fan_on := data.getD 32 0 != 0 })) := by
  constructor
  · intro h2 hdiff
    apply parse_state_not_marker
    rcases data with _ | ⟨a, _ | ⟨b, rest⟩⟩
    · simp at h2
    · simp at h2
    · simp only [List.getD_eq_getElem?_getD, List.getElem?_cons_zero,
        List.getElem?_cons_succ, Option.getD_some] at hdiff
      simp only [List.take, STATE_MSG_PREF, ne_eq, List.cons.injEq, and_true,
        not_and]
      intro ha hb
      rcases hdiff with hd | hd
      · exact hd ha
      · exact hd hb
  · exact parse_state_long data

/-- Witness for C1 at the spec's end-to-end payloads: a wrong-marker payload
decodes to `None`; the 43-byte payload with byte 10 = 1 and byte 26 = 0x32
decodes to `isOn = true`, `lockedSpeed = 5`, everything else off/zero. -/
theorem C1_parse_state_witness :
    parse_state pWrong = .ok none ∧
    parse_state pDemo = .ok (some
      { speed_locked := 5, speed_in := 0, speed_out := 0,
        auto_mode := false, night_mode := false, flows_locked := false,
        is_on := true, mini_heating_enabled := false,
        winter_mode_enabled := false, is_input_fan_on := false,
        is_output_fan_on := false }) := by
  constructor
  · exact (C1_parse_state pWrong).1 (by decide) (by decide)
  · have h := (C1_parse_state pDemo).2 (by decide) (by decide)
    rw [h]
    decide

/-- C2 as stated is false on the code in two ways.  First, the filter uses
`startswith`, not substring containment: the name `" PRNAQaq"` contains the
prefix but is rejected.  Second, a matched name can yield a friendly name
that still contains the prefix: removing the two occurrences inside
`"PRNAQaqPRNPRNAQaqAQaq"` splices a fresh `"PRNAQaq"` together. -/
theorem C2_filter_counterexample :
    (is_prana_device { name := (' ' :: pranaPref), address := "X", rssi := 0 } = false ∧
      (' ' :: pranaPref) ≠ [] ∧
      containsSub pranaPref (' ' :: pranaPref) = true) ∧
    (is_prana_device
        { name := "PRNAQaqPRNPRNAQaqAQaq".toList, address := "X", rssi := 0 } = true ∧
      containsSub pranaPref
        (prana_dev_name_2_name "PRNAQaqPRNPRNAQaqAQaq".toList) = true) := by
  decide

/-- C2 amended: the filter matches a name iff it is non-empty and starts with
the product prefix `"PRNAQaq"`; for every matched name the computed friendly
name has no leading or trailing whitespace (stripping it again changes
nothing).  The "never contains the prefix substring" part of the original
claim is dropped: prefix removal can splice a new occurrence together. -/
theorem C2_filter_amended (dev : BLEDevice) :
    (is_prana_device dev = true ↔
      dev.name ≠ [] ∧ pranaPref.isPrefixOf dev.name = true) ∧
    (is_prana_device dev = true →
      pyStrip (prana_dev_name_2_name dev.name) = prana_dev_name_2_name dev.name) := by
  constructor
  · unfold is_prana_device
    rw [Bool.and_eq_true, Bool.not_eq_true', List.isEmpty_eq_false]
  · intro h
    unfold is_prana_device at h
    rw [Bool.and_eq_true, Bool.not_eq_true'] at h
    unfold prana_dev_name_2_name
    rw [h.1]
    simpa using pyStrip_idem (removePrefixAll dev.name)

/-- Witness for C2 amended at the spec's end-to-end advertisement
`"PRNAQaq Living Room"`. -/
theorem C2_filter_amended_witness :
    is_prana_device devLR = true ∧
    pyStrip (prana_dev_name_2_name devLR.name) = prana_dev_name_2_name devLR.name := by
  refine ⟨by decide, ?_⟩
  exact (C2_filter_amended devLR).2 (by decide)

/-- C3: the discovery pipeline equals, advertisement by advertisement, the
spec's identity filter: an identity is produced iff the advertised name is
non-empty and starts with `"PRNAQaq"`, and its friendly name is the name with
every occurrence of the prefix text removed and the result then trimmed. -/
theorem C3_discover_identity (devs : List BLEDevice) :
    discoverInfos devs = devs.filterMap spec_identity := by
  induction devs with
  | nil => rfl
  | cons dev rest ih =>
    unfold discoverInfos at ih ⊢
    rw [List.filter_cons, List.filterMap_cons]
    by_cases h : (!dev.name.isEmpty && pranaPref.isPrefixOf dev.name) = true
    · have h2 := h
      rw [Bool.and_eq_true, Bool.not_eq_true'] at h2
      have hil : is_prana_device dev = true := h
      rw [hil]
      simp only [if_true, List.map_cons, spec_identity, h, ih]
      unfold prana_dev_name_2_name
      rw [h2.1]
      simp
    · have hil : is_prana_device dev = false := by
        unfold is_prana_device
        exact (Bool.not_eq_true _) ▸ h
      rw [hil]
      simp only [spec_identity, h, Bool.false_eq_true, if_false, ih]

/-- C4 as stated is false on the code: `disconnect_all` has no per-session
exception handling, so the failing disconnect at "A" aborts the loop and the
session at "B" is never attempted. -/
theorem C4_disconnect_all_counterexample :
    (disconnect_all envC4 { managed := mgdC4, nextId := 2 }).2 = ["A"] ∧
    "B" ∈ mgdC4.map Prod.fst ∧
    "B" ∉ (disconnect_all envC4 { managed := mgdC4, nextId := 2 }).2 := by
  decide

/-- C4 amended: `disconnect_all` disconnects sequentially, but a disconnect
failure propagates at once and aborts the loop: exactly the sessions up to
and including the first failing one are attempted, and only when no session's
disconnect fails does the loop run to completion. -/
theorem C4_disconnect_all_amended (env : String → Transport)
    (l : List (String × ManagedDevice)) :
    disconnectAllGo env l =
      ((if l.all (fun p => !(env p.1).disconnectFails) then .ok ()
          else .error .transportError),
        (l.takeWhile (fun p => !(env p.1).disconnectFails)).map Prod.fst ++
          ((l.dropWhile (fun p => !(env p.1).disconnectFails)).head?.map
            Prod.fst).toList) := by
  induction l with
  | nil => rfl
  | cons p rest ih =>
    rcases p with ⟨addr, md⟩
    by_cases h : (env addr).disconnectFails = true
    · simp [disconnectAllGo, deviceDisconnect, h, List.takeWhile_cons,
        List.dropWhile_cons]
    · have hb : (env addr).disconnectFails = false := by simpa using h
      simp [disconnectAllGo, deviceDisconnect, hb, ih, List.takeWhile_cons,
        List.dropWhile_cons]
      rw [hb]
      simp only [Bool.not_false, Bool.true_and]

/-- C5 as stated is false on the code: the `__has_connect_attempts` flag is
assigned only after `client.connect(...)` returns, so when the transport open
raises, a `NotConnected` session stays `NotConnected` (flag still clear). -/
theorem C5_connect_fail_counterexample :
    (deviceConnect failT dNC).1 = .error .transportError ∧
    ((deviceConnect failT dNC).2.1).has_connect_attempts = false :=
  ⟨rfl, rfl⟩

/-- C5 amended: when the transport open raises, `connect` propagates the
error, leaves the session state unchanged (a clear flag stays clear), and no
notification subscription happens. -/
theorem C5_connect_fail_amended (env : Transport) (d : PranaDevice)
    (h : env.connectFails = true) :
    deviceConnect env d = (.error .transportError, d, [.connectCall]) := by
  simp [deviceConnect, h]

/-- Witness for C5 amended: a failing open on a never-connected session. -/
theorem C5_connect_fail_amended_witness :
    deviceConnect failT dNC = (.error .transportError, dNC, [.connectCall]) :=
  C5_connect_fail_amended failT dNC rfl

/-- C6 as stated is false on the code: `connect` calls `start_notify`
unconditionally (the `is_connected` guard is commented out), so a `connect`
on an already-connected session creates one more subscription. -/
theorem C6_idempotence_counterexample :
    (deviceIsConnected okT dConn).1 = true ∧
    countSubs (deviceConnect okT dConn).2.2 = 1 :=
  ⟨rfl, rfl⟩

/-- C6 amended: a repeated `connect` does not create a second Session (the
registry keeps one session per address, so the mapping's size is unchanged by
a second `connect` on the same address), but each successful `connect` call
issues one more notification subscription; `disconnect` always delegates one
`disconnect` call to the transport and never changes the session state. -/
theorem C6_idempotence_amended (env env1 env2 : Transport) (d : PranaDevice)
    (m : Manager) (addr : String) :
    (countSubs (deviceConnect env d).2.2 = if env.connectFails then 0 else 1) ∧
    (deviceDisconnect env d =
      ((if env.disconnectFails then .error .transportError else .ok ()), d,
        [.disconnectCall])) ∧
    ((managerConnect env2 (managerConnect env1 m addr).2 addr).2.managed.length =
      (managerConnect env1 m addr).2.managed.length) := by
  refine ⟨?_, ?_, ?_⟩
  · by_cases h : env.connectFails = true <;> simp [deviceConnect, h, countSubs]
  · by_cases h : env.disconnectFails = true <;> simp [deviceDisconnect, h]
  · obtain ⟨md, hmd, _⟩ := managerConnect_lookup env1 m addr
    exact managerConnect_length_of_some env2 _ addr md hmd

/-- C7: when `is_connected()` is false, every command-issuing operation
(`set_high_speed`, `set_night_mode`, `turn_off`, `read_state`) fails with the
not-connected error and its trace holds no characteristic write or read. -/
theorem C7_guard (env : Transport) (d : PranaDevice)
    (h : (deviceIsConnected env d).1 = false) :
    ((setHighSpeed env d).1 = .error .notConnectedError ∧
      charIOFree (setHighSpeed env d).2 = true) ∧
    ((setNightMode env d).1 = .error .notConnectedError ∧
      charIOFree (setNightMode env d).2 = true) ∧
    ((turnOff env d).1 = .error .notConnectedError ∧
      charIOFree (turnOff env d).2 = true) ∧
    ((readState env d).1 = .error .notConnectedError ∧
      charIOFree (readState env d).2 = true) := by
  have hd : deviceIsConnected env d = (false, (deviceIsConnected env d).2) := by
    rw [← h]
  have hv : verifyConnected env d =
      (.error .notConnectedError, (deviceIsConnected env d).2) := by
    unfold verifyConnected
    rw [hd]
    simp
  have htr : charIOFree (deviceIsConnected env d).2 = true := by
    unfold deviceIsConnected
    by_cases hf : d.has_connect_attempts = true <;> simp [hf, charIOFree]
  refine ⟨⟨?_, ?_⟩, ⟨?_, ?_⟩, ⟨?_, ?_⟩, ⟨?_, ?_⟩⟩ <;>
    simp [setHighSpeed, setNightMode, turnOff, readState, hv, htr]

/-- Witness for C7 on a session that never attempted a connect. -/
theorem C7_guard_witness :
    ((setHighSpeed okT dNC).1 = .error .notConnectedError ∧
      charIOFree (setHighSpeed okT dNC).2 = true) ∧
    ((setNightMode okT dNC).1 = .error .notConnectedError ∧
      charIOFree (setNightMode okT dNC).2 = true) ∧
    ((turnOff okT dNC).1 = .error .notConnectedError ∧
      charIOFree (turnOff okT dNC).2 = true) ∧
    ((readState okT dNC).1 = .error .notConnectedError ∧
      charIOFree (readState okT dNC).2 = true) :=
  C7_guard okT dNC rfl

/-- C8: the registry keeps at most one session per address and reuses it: a
stored session keeps its identity across a `connect`, and two `connect` calls
resolving to the same address return the same session instance. -/
theorem C8_registry_identity (env1 env2 : Transport) (m : Manager) (addr : String) :
    (∀ md, lookupDev m.managed addr = some md →
      (lookupDev (managerConnect env1 m addr).2.managed addr).map
        ManagedDevice.id = some md.id) ∧
    (∀ i j, (managerConnect env1 m addr).1 = .ok i →
      (managerConnect env2 (managerConnect env1 m addr).2 addr).1 = .ok j →
      i = j) := by
  constructor
  · intro md hmd
    exact managerConnect_preserves_id env1 m addr md hmd
  · intro i j h1 h2
    obtain ⟨md, hmd, hids⟩ := managerConnect_lookup env1 m addr
    rw [hids i h1]
    exact (managerConnect_reuse env2 _ addr md hmd j h2).symm ▸ rfl

/-- Witness for C8: a registry already holding session 7 for "A" keeps it
across a `connect`, and two successive `connect("A")` calls both return 7. -/
theorem C8_registry_identity_witness :
    (lookupDev (managerConnect okT mW "A").2.managed "A").map ManagedDevice.id =
      some 7 ∧ (7 : Nat) = 7 := by
  have h := C8_registry_identity okT okT mW "A"
  exact ⟨h.1 { id := 7, dev := { address := "A", has_connect_attempts := false } } rfl,
    h.2 7 7 rfl rfl⟩

/-- C9: when the transport does not fail, `_send_command` performs exactly one
acknowledged write of the command bytes, the fixed 600 ms settle delay, and
one fresh (cache-bypassing) read, and returns the bytes read iff
`expect_reply` is true (discarding them otherwise). -/
theorem C9_send_command (env : Transport) (command : List Nat) (er : Bool)
    (hw : env.writeFails = false) (hr : env.readFails = false) :
    sendCommand env command er =
      (.ok (if er then some env.readValue else none),
        [.writeChar CONTROL_RW_CHAR_UUID command true, .sleepMs 600,
          .readChar CONTROL_RW_CHAR_UUID false]) := by
  simp [sendCommand, hw, hr]

/-- Witness for C9: a read-state exchange returns the read bytes; a
fire-and-forget command discards them. -/
theorem C9_send_command_witness :
    sendCommand okT CMD_READ_STATE true =
      (.ok (some []),
        [.writeChar CONTROL_RW_CHAR_UUID CMD_READ_STATE true, .sleepMs 600,
          .readChar CONTROL_RW_CHAR_UUID false]) ∧
    sendCommand okT ENABLE_HIGH_SPEED false =
      (.ok none,
        [.writeChar CONTROL_RW_CHAR_UUID ENABLE_HIGH_SPEED true, .sleepMs 600,
          .readChar CONTROL_RW_CHAR_UUID false]) := by
  constructor
  · have h := C9_send_command okT CMD_READ_STATE true rfl rfl
    simpa using h
  · have h := C9_send_command okT ENABLE_HIGH_SPEED false rfl rfl
    simpa using h

/-- C10: on a marker-prefixed payload of at most 42 bytes, `__parse_state`
neither returns `None` nor a partial state: it raises an `IndexError` at an
out-of-range offset; decode succeeds exactly on marker-prefixed payloads of
length at least 43. -/
theorem C10_short_payload (data : List Nat) (hm : data.take 2 = STATE_MSG_PREF) :
    (data.length ≤ 42 → ∃ i, parse_state data = .error i ∧ data.length ≤ i) ∧
    (43 ≤ data.length → ∃ s, parse_state data = .ok (some s)) := by
  constructor
  · intro hl
    by_cases h26 : data.length ≤ 26
    · refine ⟨26, ?_, h26⟩
      simp [parse_state, hm, ok_bind, err_bind, getByte_err data 26 h26]
    · by_cases h30 : data.length ≤ 30
      · refine ⟨30, ?_, h30⟩
        simp [parse_state, hm, ok_bind, err_bind,
          getByte_ok data 26 (by omega), getByte_err data 30 h30]
      · by_cases h34 : data.length ≤ 34
        · refine ⟨34, ?_, h34⟩
          simp [parse_state, hm, ok_bind, err_bind,
            getByte_ok data 26 (by omega), getByte_ok data 30 (by omega),
            getByte_err data 34 h34]
        · refine ⟨42, ?_, by omega⟩
          simp [parse_state, hm, ok_bind, err_bind,
            getByte_ok data 26 (by omega), getByte_ok data 30 (by omega),
            getByte_ok data 34 (by omega), getByte_ok data 20 (by omega),
            getByte_ok data 16 (by omega), getByte_ok data 22 (by omega),
            getByte_ok data 10 (by omega), getByte_ok data 14 (by omega),
            getByte_err data 42 (by omega)]
  · intro hl
    exact ⟨_, parse_state_long data hm hl⟩

/-- Witness for C10: the bare marker raises; a full 43-byte payload decodes. -/
theorem C10_short_payload_witness :
    (∃ i, parse_state pShort = .error i ∧ pShort.length ≤ i) ∧
    (∃ s, parse_state pDemo = .ok (some s)) := by
  have h1 := C10_short_payload pShort (by decide)
  have h2 := C10_short_payload pDemo (by decide)
  exact ⟨h1.1 (by decide), h2.2 (by decide)⟩

